import Mathlib

/-!
Shallow embedding of the order-execution and chain-transaction core of the
AI-Trader repository (src/agent_tools/tool_trade.py and
src/agent_tools/blockchain/evm.py), together with proofs of the spec's
claims about it.

Conventions of the embedding:
* Python floats (prices, cash balances, time stamps) are modelled as `ℚ`;
  the claims under scrutiny are algebraic relations on these values, not
  rounding facts.
* A Python dict holding a position is an association list
  `List (String × ℚ)` with first-match lookup and in-place update.
* Fallible external calls (price lookup, position load, chain RPC) appear
  as `Option`/`Except` valued fields of an environment record: the
  embedding is the control flow of the source, the environment supplies
  what the network/filesystem would have answered.
* `os.getenv` values are `Option String` (`none` = unset).
-/

namespace AITrader

/-- A Python dict `{symbol: quantity, ..., "CASH": balance}` as an
association list with first-match semantics. -/
abbrev Position := List (String × ℚ)

/-- Dict lookup: `d[k]` as an `Option` (`none` = `KeyError`). -/
def dget : Position → String → Option ℚ
  | [], _ => none
  | (k, v) :: rest, key => if k = key then some v else dget rest key

/-- Dict lookup with default: Python `d.get(k, dflt)`. -/
def dgetD (d : Position) (key : String) (dflt : ℚ) : ℚ :=
  (dget d key).getD dflt

/-- Dict update `d[k] = v`: replace the first binding of `k`, or append a
new binding when `k` is absent. -/
def dset : Position → String → ℚ → Position
  | [], key, v => [(key, v)]
  | (k, w) :: rest, key, v =>
      if k = key then (key, v) :: rest else (k, w) :: dset rest key v

/-- Python `k in d`. -/
def dmem (d : Position) (key : String) : Bool :=
  (dget d key).isSome

/-- One line of `position.jsonl`:
`{date, id, this_action: {action, symbol, amount}, positions}`. -/
structure ActionRecord where
  date : String
  id : Int
  action : String
  symbol : String
  amount : Int
  positions : Position
deriving DecidableEq, Repr

/-- Structured `{"error": ..., ...}` dictionary returned by `buy`/`sell`.
Only the keys the source actually emits are modelled; a key the branch
does not set stays `none`.  The `suggestion` message of the lot-size
rejection is modelled by the two quantities it interpolates. -/
structure ErrDict where
  error : String
  symbol : Option String := none
  amount : Option Int := none
  date : Option String := none
  suggestion : Option (Int × Int) := none
  required_cash : Option ℚ := none
  cash_available : Option ℚ := none
  haveShares : Option ℚ := none
  want_to_sell : Option Int := none
  total_position : Option ℚ := none
  bought_today : Option Int := none
  sellable_today : Option ℚ := none
deriving DecidableEq, Repr

/-- What a call to `buy`/`sell` does: propagate a Python exception, return
an error dict, or return the new position dict. -/
inductive Outcome where
  | raised (msg : String)
  | err (e : ErrDict)
  | pos (p : Position)
deriving DecidableEq, Repr

/-- Result of one `buy`/`sell` call: the returned/raised value, the final
content of the ledger file, and whether `send_token_with_memo` was
invoked. -/
structure CallResult where
  outcome : Outcome
  ledger : List ActionRecord
  chainSubmitted : Bool
deriving DecidableEq, Repr

/-- Environment a `buy`/`sell` call runs in: config values, the answers
the external collaborators would give, and the current ledger file. -/
structure TradeEnv where
  /-- `get_config_value("SIGNATURE")`. -/
  signature : Option String
  /-- `get_config_value("TODAY_DATE")`. -/
  todayDate : String
  /-- `get_open_prices(today, [symbol], market)[symbol + "_price"]`;
  `none` models the `KeyError`. -/
  price : String → Option ℚ
  /-- `get_latest_position(today_date, signature)` (tools/price_tools, not
  under src/): the position dict and the current maximum action id, or the
  exception it raised. -/
  positionLoad : Except String (Position × Int)
  /-- Raw value of `os.getenv("USE_BLOCKCHAIN_POSITION")`. -/
  useBlockchainVar : Option String
  /-- `os.getenv("ARB_WALLET_ADDRESS")`. -/
  walletAddress : Option String
  /-- `os.getenv("ARB_PRIVATE_KEY")`. -/
  privateKey : Option String
  /-- `STOCK_ADDRESS[symbol].token_address` (`none` = symbol absent). -/
  stockAddress : String → Option String
  /-- Result of `ARBITRUM_CLIENT.send_token_with_memo(...)`: a tx hash, or
  the exception message it raised. -/
  chainSubmit : Except String String
  /-- Current content of `position.jsonl` (well-formed lines). -/
  ledger : List ActionRecord

/-- Python truthiness of an optional string: `None` and `""` are falsy. -/
def truthy : Option String → Bool
  | none => false
  | some s => s ≠ ""

/-- Python `s.endswith(suffix)`, as a suffix test on the character list. -/
def strEndsWith (s suffix : String) : Bool :=
  suffix.data.isSuffixOf s.data

/-- Python `s.lower()` (ASCII case folding, character by character). -/
def strToLower (s : String) : String :=
  ⟨s.data.map Char.toLower⟩

/-- `market = "cn" if symbol.endswith((".SH", ".SZ")) else "us"`. -/
def marketOf (symbol : String) : String :=
  if strEndsWith symbol ".SH" || strEndsWith symbol ".SZ" then "cn" else "us"

/-- `os.getenv("USE_BLOCKCHAIN_POSITION", "true").lower() in ("true", "1", "yes")`. -/
def useBlockchain (v : Option String) : Bool :=
  let s := strToLower (v.getD "true")
  s = "true" || s = "1" || s = "yes"

/-- `_get_today_buy_amount(symbol, today_date, signature)`: scan the
ledger file and total the amounts of same-day buy records of `symbol`. -/
def todayBuyAmount (ledger : List ActionRecord) (symbol today : String) : Int :=
  (ledger.filter fun r => r.date = today && r.action = "buy" && r.symbol = symbol).foldl
    (fun acc r => acc + r.amount) 0

/-- `buy(symbol, amount)` of src/agent_tools/tool_trade.py.

The `expiry_days` argument is omitted: it only flows into the memo string
handed to the chain client, which the `chainSubmit` field abstracts.

Modelled from the spec: `get_latest_position` (tools/price_tools, not
under src/) supplies the prior position dict; per spec §8
(`new[symbol] == old.get(symbol,0) + qty`) a symbol absent from that dict
reads as 0, so the source line `new_position[symbol] += amount` is
embedded as a default-0 read-then-set. -/
def buy (env : TradeEnv) (symbol : String) (amount : Int) : CallResult :=
  match env.signature with
  | none => ⟨.raised "SIGNATURE environment variable is not set", env.ledger, false⟩
  | some _ =>
    let today := env.todayDate
    let market := marketOf symbol
    if market = "cn" && Int.fmod amount 100 != 0 then
      ⟨.err { error := "Chinese A-shares must be traded in multiples of 100 shares (1 lot = 100 shares). You tried to buy " ++ toString amount ++ " shares.",
              symbol := some symbol, amount := some amount, date := some today,
              suggestion := some (Int.fdiv amount 100 * 100, (Int.fdiv amount 100 + 1) * 100) },
        env.ledger, false⟩
    else
      match env.positionLoad with
      | .error e =>
          ⟨.err { error := "Failed to load latest position: " ++ e,
                  symbol := some symbol, date := some today }, env.ledger, false⟩
      | .ok (current_position, current_action_id) =>
        match env.price symbol with
        | none =>
            ⟨.err { error := "Symbol " ++ symbol ++ " not found! This action will not be allowed.",
                    symbol := some symbol, date := some today }, env.ledger, false⟩
        | some this_symbol_price =>
          match dget current_position "CASH" with
          | none =>
              -- the `try` around `cash_left = ...` only prints; the
              -- subsequent use of the unbound name raises
              ⟨.raised "name 'cash_left' is not defined", env.ledger, false⟩
          | some cash =>
            let cash_left := cash - this_symbol_price * amount
            if cash_left < 0 then
              ⟨.err { error := "Insufficient cash! This action will not be allowed.",
                      required_cash := some (this_symbol_price * amount),
                      cash_available := some (dgetD current_position "CASH" 0),
                      symbol := some symbol, date := some today }, env.ledger, false⟩
            else
              let new_position := dset current_position "CASH" cash_left
              let new_position := dset new_position symbol (dgetD new_position symbol 0 + amount)
              if !useBlockchain env.useBlockchainVar then
                ⟨.pos new_position,
                  env.ledger ++ [⟨today, current_action_id + 1, "buy", symbol, amount, new_position⟩],
                  false⟩
              else
                if !truthy env.walletAddress || !truthy env.privateKey then
                  ⟨.err { error := "Blockchain transaction failed: ARB_WALLET_ADDRESS and ARB_PRIVATE_KEY must be set for blockchain trading",
                          symbol := some symbol, date := some today }, env.ledger, false⟩
                else
                  match env.stockAddress symbol with
                  | none =>
                      ⟨.err { error := "Blockchain transaction failed: Stock token address not found for " ++ symbol,
                              symbol := some symbol, date := some today }, env.ledger, false⟩
                  | some _ =>
                    match env.chainSubmit with
                    | .error e =>
                        ⟨.err { error := "Blockchain transaction failed: " ++ e,
                                symbol := some symbol, date := some today }, env.ledger, true⟩
                    | .ok _ => ⟨.pos new_position, env.ledger, true⟩

/-- `sell(symbol, amount)` of src/agent_tools/tool_trade.py.

As in `buy`, `expiry_days` is omitted (memo-only) and the prior position
comes from the environment.  Unlike `buy`, the source wraps no
`try`/`except` around `get_latest_position`, so its failure propagates as
an exception. -/
def sell (env : TradeEnv) (symbol : String) (amount : Int) : CallResult :=
  match env.signature with
  | none => ⟨.raised "SIGNATURE environment variable is not set", env.ledger, false⟩
  | some _ =>
    let today := env.todayDate
    let market := marketOf symbol
    if market = "cn" && Int.fmod amount 100 != 0 then
      ⟨.err { error := "Chinese A-shares must be traded in multiples of 100 shares (1 lot = 100 shares). You tried to sell " ++ toString amount ++ " shares.",
              symbol := some symbol, amount := some amount, date := some today,
              suggestion := some (Int.fdiv amount 100 * 100, (Int.fdiv amount 100 + 1) * 100) },
        env.ledger, false⟩
    else
      match env.positionLoad with
      | .error e => ⟨.raised e, env.ledger, false⟩
      | .ok (current_position, current_action_id) =>
        match env.price symbol with
        | none =>
            ⟨.err { error := "Symbol " ++ symbol ++ " not found! This action will not be allowed.",
                    symbol := some symbol, date := some today }, env.ledger, false⟩
        | some this_symbol_price =>
          if !dmem current_position symbol then
            ⟨.err { error := "No position for " ++ symbol ++ "! This action will not be allowed.",
                    symbol := some symbol, date := some today }, env.ledger, false⟩
          else if dgetD current_position symbol 0 < (amount : ℚ) then
            ⟨.err { error := "Insufficient shares! This action will not be allowed.",
                    haveShares := some (dgetD current_position symbol 0),
                    want_to_sell := some amount,
                    symbol := some symbol, date := some today }, env.ledger, false⟩
          else
            let bought_today := todayBuyAmount env.ledger symbol today
            let sellable_amount := dgetD current_position symbol 0 - bought_today
            if market = "cn" && bought_today > 0 && sellable_amount < (amount : ℚ) then
              ⟨.err { error := "T+1 restriction violated! You bought " ++ toString bought_today ++ " shares of " ++ symbol ++ " today and cannot sell them until tomorrow.",
                      symbol := some symbol,
                      total_position := some (dgetD current_position symbol 0),
                      bought_today := some bought_today,
                      sellable_today := some (max 0 sellable_amount),
                      want_to_sell := some amount,
                      date := some today }, env.ledger, false⟩
            else
              let new_position := dset current_position symbol
                (dgetD current_position symbol 0 - amount)
              let new_position := dset new_position "CASH"
                (dgetD new_position "CASH" 0 + this_symbol_price * amount)
              if !useBlockchain env.useBlockchainVar then
                ⟨.pos new_position,
                  env.ledger ++ [⟨today, current_action_id + 1, "sell", symbol, amount, new_position⟩],
                  false⟩
              else
                if !truthy env.walletAddress || !truthy env.privateKey then
                  ⟨.err { error := "Blockchain transaction failed: ARB_WALLET_ADDRESS and ARB_PRIVATE_KEY must be set for blockchain trading",
                          symbol := some symbol, date := some today }, env.ledger, false⟩
                else
                  match env.stockAddress symbol with
                  | none =>
                      ⟨.err { error := "Blockchain transaction failed: Stock token address not found for " ++ symbol,
                              symbol := some symbol, date := some today }, env.ledger, false⟩
                  | some _ =>
                    match env.chainSubmit with
                    | .error e =>
                        ⟨.err { error := "Blockchain transaction failed: " ++ e,
                                symbol := some symbol, date := some today }, env.ledger, true⟩
                    | .ok _ => ⟨.pos new_position, env.ledger, true⟩

theorem dget_dset_self (d : Position) (k : String) (v : ℚ) :
    dget (dset d k v) k = some v := by
  induction d with
  | nil => simp [dget, dset]
  | cons hd tl ih =>
    obtain ⟨k', w⟩ := hd
    by_cases h : k' = k
    · simp [dget, dset, h]
    · simp [dget, dset, h, ih]

theorem dget_dset_ne (d : Position) (k k' : String) (v : ℚ) (h : k' ≠ k) :
    dget (dset d k v) k' = dget d k' := by
  induction d with
  | nil => simp [dget, dset, Ne.symm h]
  | cons hd tl ih =>
    obtain ⟨k₀, w⟩ := hd
    by_cases h₀ : k₀ = k
    · subst h₀
      simp [dget, dset, Ne.symm h]
    · simp [dget, dset, h₀, ih]

/-- If a `buy` call returns a position, that position is the two-key
update that Step 5 of the source computes, the prior position had a
`CASH` key, and the price lookup succeeded. -/
theorem buy_pos_eq (env : TradeEnv) (symbol : String) (amount : Int)
    (pos₀ : Position) (aid : Int) (pr : ℚ) (p : Position)
    (hload : env.positionLoad = .ok (pos₀, aid))
    (hprice : env.price symbol = some pr)
    (hbuy : (buy env symbol amount).outcome = .pos p) :
    ∃ cash, dget pos₀ "CASH" = some cash ∧
      p = dset (dset pos₀ "CASH" (cash - pr * amount)) symbol
            (dgetD (dset pos₀ "CASH" (cash - pr * amount)) symbol 0 + amount) := by
  unfold buy at hbuy
  rcases hsig : env.signature with _ | s <;> rw [hsig] at hbuy
  · simp at hbuy
  · rw [hload, hprice] at hbuy
    simp only at hbuy
    split at hbuy
    · simp at hbuy
    · rcases hcash : dget pos₀ "CASH" with _ | cash <;> rw [hcash] at hbuy
      · simp at hbuy
      · refine ⟨cash, rfl, ?_⟩
        simp only at hbuy
        split at hbuy
        · simp at hbuy
        · split at hbuy
          · simp at hbuy
            exact hbuy.symm
          · split at hbuy
            · simp at hbuy
            · split at hbuy
              · simp at hbuy
              · split at hbuy
                · simp at hbuy
                · simp at hbuy
                  exact hbuy.symm

/-- If a `sell` call returns a position, that position is the two-key
update that Step 5 of the source computes. -/
theorem sell_pos_eq (env : TradeEnv) (symbol : String) (amount : Int)
    (pos₀ : Position) (aid : Int) (pr : ℚ) (p : Position)
    (hload : env.positionLoad = .ok (pos₀, aid))
    (hprice : env.price symbol = some pr)
    (hsell : (sell env symbol amount).outcome = .pos p) :
    p = dset (dset pos₀ symbol (dgetD pos₀ symbol 0 - amount)) "CASH"
          (dgetD (dset pos₀ symbol (dgetD pos₀ symbol 0 - amount)) "CASH" 0
            + pr * amount) := by
  unfold sell at hsell
  rcases hsig : env.signature with _ | s <;> rw [hsig] at hsell
  · simp at hsell
  · rw [hload, hprice] at hsell
    simp only at hsell
    split at hsell
    · simp at hsell
    · split at hsell
      · simp at hsell
      · split at hsell
        · simp at hsell
        · split at hsell
          · simp at hsell
          · split at hsell
            · simp at hsell
              exact hsell.symm
            · split at hsell
              · simp at hsell
              · split at hsell
                · simp at hsell
                · split at hsell
                  · simp at hsell
                  · simp at hsell
                    exact hsell.symm

/-- C1: for every accepted buy of `qty` shares at price `p` the returned
position is the prior position with `CASH` decreased by `p*qty` and the
symbol's quantity equal to the prior quantity (0 when absent) plus `qty`;
for every accepted sell, symmetrically, `CASH` increases by `p*qty` and
the symbol's quantity decreases by `qty`; no other key changes. -/
theorem c1_accepted_trade_updates (env : TradeEnv) (symbol : String) (amount : Int)
    (pos₀ : Position) (aid : Int) (pr : ℚ) (p : Position)
    (hload : env.positionLoad = .ok (pos₀, aid))
    (hprice : env.price symbol = some pr)
    (hsym : symbol ≠ "CASH") :
    ((buy env symbol amount).outcome = .pos p →
      dget p "CASH" = some (dgetD pos₀ "CASH" 0 - pr * amount) ∧
      dget p symbol = some (dgetD pos₀ symbol 0 + amount) ∧
      ∀ k, k ≠ "CASH" → k ≠ symbol → dget p k = dget pos₀ k) ∧
    ((sell env symbol amount).outcome = .pos p →
      dget p "CASH" = some (dgetD pos₀ "CASH" 0 + pr * amount) ∧
      dget p symbol = some (dgetD pos₀ symbol 0 - amount) ∧
      ∀ k, k ≠ "CASH" → k ≠ symbol → dget p k = dget pos₀ k) := by
  constructor
  · intro hbuy
    obtain ⟨cash, hcash, hp⟩ := buy_pos_eq env symbol amount pos₀ aid pr p hload hprice hbuy
    subst hp
    refine ⟨?_, ?_, ?_⟩
    · rw [dget_dset_ne _ symbol "CASH" _ (Ne.symm hsym), dget_dset_self]
      simp [dgetD, hcash]
    · rw [dget_dset_self]
      simp [dgetD, dget_dset_ne _ "CASH" symbol _ hsym]
    · intro k hk₁ hk₂
      rw [dget_dset_ne _ symbol k _ hk₂, dget_dset_ne _ "CASH" k _ hk₁]
  · intro hsell
    have hp := sell_pos_eq env symbol amount pos₀ aid pr p hload hprice hsell
    subst hp
    refine ⟨?_, ?_, ?_⟩
    · rw [dget_dset_self]
      simp [dgetD, dget_dset_ne _ symbol "CASH" _ (Ne.symm hsym)]
    · rw [dget_dset_ne _ "CASH" symbol _ hsym, dget_dset_self]
    · intro k hk₁ hk₂
      rw [dget_dset_ne _ "CASH" k _ hk₁, dget_dset_ne _ symbol k _ hk₂]

/-- Concrete environment realising the spec's worked example:
`buy("AAPL", 10)` at price 150 starting from `{CASH: 10000}`, file mode. -/
def envC1buy : TradeEnv :=
  { signature := some "agent"
    todayDate := "2025-11-11"
    price := fun s => if s = "AAPL" then some 150 else none
    positionLoad := .ok ([("CASH", 10000)], 0)
    useBlockchainVar := some "false"
    walletAddress := none
    privateKey := none
    stockAddress := fun _ => none
    chainSubmit := .error "network unavailable"
    ledger := [] }

/-- The same environment after the buy: `sell("AAPL", 5)` on
`{AAPL: 10, CASH: 8500}`. -/
def envC1sell : TradeEnv :=
  { envC1buy with
    positionLoad := .ok ([("CASH", 8500), ("AAPL", 10)], 1)
    ledger := [⟨"2025-11-11", 1, "buy", "AAPL", 10, [("CASH", 8500), ("AAPL", 10)]⟩] }

theorem c1_accepted_trade_updates_witness :
    (dget [("CASH", 8500), ("AAPL", 10)] "CASH"
        = some (dgetD [("CASH", 10000)] "CASH" 0 - 150 * ((10 : Int) : ℚ)) ∧
      dget [("CASH", 8500), ("AAPL", 10)] "AAPL"
        = some (dgetD [("CASH", 10000)] "AAPL" 0 + ((10 : Int) : ℚ))) ∧
    (dget [("CASH", 9250), ("AAPL", 5)] "CASH"
        = some (dgetD [("CASH", 8500), ("AAPL", 10)] "CASH" 0 + 150 * ((5 : Int) : ℚ)) ∧
      dget [("CASH", 9250), ("AAPL", 5)] "AAPL"
        = some (dgetD [("CASH", 8500), ("AAPL", 10)] "AAPL" 0 - ((5 : Int) : ℚ))) := by
  have hb := (c1_accepted_trade_updates envC1buy "AAPL" 10 [("CASH", 10000)] 0 150
      [("CASH", 8500), ("AAPL", 10)] rfl rfl (by decide)).1
    (by norm_num +decide [buy, envC1buy, marketOf, strEndsWith, useBlockchain, strToLower,
          dget, dgetD, dset])
  have hs := (c1_accepted_trade_updates envC1sell "AAPL" 5 [("CASH", 8500), ("AAPL", 10)] 1 150
      [("CASH", 9250), ("AAPL", 5)] rfl rfl (by decide)).2
    (by norm_num +decide [sell, envC1sell, envC1buy, marketOf, strEndsWith, useBlockchain,
          strToLower, dget, dgetD, dset, dmem, todayBuyAmount])
  exact ⟨⟨hb.1, hb.2.1⟩, ⟨hs.1, hs.2.1⟩⟩

/-- Is the outcome a returned `{"error": ...}` dictionary? -/
def Outcome.isErrDict : Outcome → Bool
  | .err _ => true
  | _ => false

theorem buy_sig_none (env : TradeEnv) (symbol : String) (amount : Int)
    (hsig : env.signature = none) :
    buy env symbol amount =
      ⟨.raised "SIGNATURE environment variable is not set", env.ledger, false⟩ := by
  unfold buy
  rw [hsig]

theorem sell_sig_none (env : TradeEnv) (symbol : String) (amount : Int)
    (hsig : env.signature = none) :
    sell env symbol amount =
      ⟨.raised "SIGNATURE environment variable is not set", env.ledger, false⟩ := by
  unfold sell
  rw [hsig]

theorem buy_lot_reject (env : TradeEnv) (symbol : String) (amount : Int) (s : String)
    (hsig : env.signature = some s)
    (hcn : marketOf symbol = "cn")
    (hlot : Int.fmod amount 100 ≠ 0) :
    buy env symbol amount =
      ⟨.err { error := "Chinese A-shares must be traded in multiples of 100 shares (1 lot = 100 shares). You tried to buy " ++ toString amount ++ " shares.",
              symbol := some symbol, amount := some amount, date := some env.todayDate,
              suggestion := some (Int.fdiv amount 100 * 100, (Int.fdiv amount 100 + 1) * 100) },
        env.ledger, false⟩ := by
  unfold buy
  rw [hsig]
  simp [hcn, hlot]

theorem sell_lot_reject (env : TradeEnv) (symbol : String) (amount : Int) (s : String)
    (hsig : env.signature = some s)
    (hcn : marketOf symbol = "cn")
    (hlot : Int.fmod amount 100 ≠ 0) :
    sell env symbol amount =
      ⟨.err { error := "Chinese A-shares must be traded in multiples of 100 shares (1 lot = 100 shares). You tried to sell " ++ toString amount ++ " shares.",
              symbol := some symbol, amount := some amount, date := some env.todayDate,
              suggestion := some (Int.fdiv amount 100 * 100, (Int.fdiv amount 100 + 1) * 100) },
        env.ledger, false⟩ := by
  unfold sell
  rw [hsig]
  simp [hcn, hlot]

/-- Reduce the leading checks of `buy` when the signature is present and
the lot-size gate passes. -/
theorem buy_past_lot (env : TradeEnv) (symbol : String) (amount : Int) (s : String)
    (hsig : env.signature = some s)
    (hlotok : marketOf symbol = "cn" → Int.fmod amount 100 = 0) :
    buy env symbol amount =
      (match env.positionLoad with
       | .error e =>
           ⟨.err { error := "Failed to load latest position: " ++ e,
                   symbol := some symbol, date := some env.todayDate }, env.ledger, false⟩
       | .ok (current_position, current_action_id) =>
         match env.price symbol with
         | none =>
             ⟨.err { error := "Symbol " ++ symbol ++ " not found! This action will not be allowed.",
                     symbol := some symbol, date := some env.todayDate }, env.ledger, false⟩
         | some this_symbol_price =>
           match dget current_position "CASH" with
           | none => ⟨.raised "name 'cash_left' is not defined", env.ledger, false⟩
           | some cash =>
             let cash_left := cash - this_symbol_price * amount
             if cash_left < 0 then
               ⟨.err { error := "Insufficient cash! This action will not be allowed.",
                       required_cash := some (this_symbol_price * amount),
                       cash_available := some (dgetD current_position "CASH" 0),
                       symbol := some symbol, date := some env.todayDate }, env.ledger, false⟩
             else
               let new_position := dset current_position "CASH" cash_left
               let new_position := dset new_position symbol (dgetD new_position symbol 0 + amount)
               if !useBlockchain env.useBlockchainVar then
                 ⟨.pos new_position,
                   env.ledger ++ [⟨env.todayDate, current_action_id + 1, "buy", symbol, amount, new_position⟩],
                   false⟩
               else
                 if !truthy env.walletAddress || !truthy env.privateKey then
                   ⟨.err { error := "Blockchain transaction failed: ARB_WALLET_ADDRESS and ARB_PRIVATE_KEY must be set for blockchain trading",
                           symbol := some symbol, date := some env.todayDate }, env.ledger, false⟩
                 else
                   match env.stockAddress symbol with
                   | none =>
                       ⟨.err { error := "Blockchain transaction failed: Stock token address not found for " ++ symbol,
                               symbol := some symbol, date := some env.todayDate }, env.ledger, false⟩
                   | some _ =>
                     match env.chainSubmit with
                     | .error e =>
                         ⟨.err { error := "Blockchain transaction failed: " ++ e,
                                 symbol := some symbol, date := some env.todayDate }, env.ledger, true⟩
                     | .ok _ => ⟨.pos new_position, env.ledger, true⟩) := by
  unfold buy
  rw [hsig]
  by_cases hm : marketOf symbol = "cn"
  · simp [hm, hlotok hm]
  · simp [hm]

/-- Reduce the leading checks of `sell` when the signature is present and
the lot-size gate passes. -/
theorem sell_past_lot (env : TradeEnv) (symbol : String) (amount : Int) (s : String)
    (hsig : env.signature = some s)
    (hlotok : marketOf symbol = "cn" → Int.fmod amount 100 = 0) :
    sell env symbol amount =
      (match env.positionLoad with
       | .error e => ⟨.raised e, env.ledger, false⟩
       | .ok (current_position, current_action_id) =>
         match env.price symbol with
         | none =>
             ⟨.err { error := "Symbol " ++ symbol ++ " not found! This action will not be allowed.",
                     symbol := some symbol, date := some env.todayDate }, env.ledger, false⟩
         | some this_symbol_price =>
           if !dmem current_position symbol then
             ⟨.err { error := "No position for " ++ symbol ++ "! This action will not be allowed.",
                     symbol := some symbol, date := some env.todayDate }, env.ledger, false⟩
           else if dgetD current_position symbol 0 < (amount : ℚ) then
             ⟨.err { error := "Insufficient shares! This action will not be allowed.",
                     haveShares := some (dgetD current_position symbol 0),
                     want_to_sell := some amount,
                     symbol := some symbol, date := some env.todayDate }, env.ledger, false⟩
           else
             let bought_today := todayBuyAmount env.ledger symbol env.todayDate
             let sellable_amount := dgetD current_position symbol 0 - bought_today
             if marketOf symbol = "cn" && bought_today > 0 && sellable_amount < (amount : ℚ) then
               ⟨.err { error := "T+1 restriction violated! You bought " ++ toString bought_today ++ " shares of " ++ symbol ++ " today and cannot sell them until tomorrow.",
                       symbol := some symbol,
                       total_position := some (dgetD current_position symbol 0),
                       bought_today := some bought_today,
                       sellable_today := some (max 0 sellable_amount),
                       want_to_sell := some amount,
                       date := some env.todayDate }, env.ledger, false⟩
             else
               let new_position := dset current_position symbol
                 (dgetD current_position symbol 0 - amount)
               let new_position := dset new_position "CASH"
                 (dgetD new_position "CASH" 0 + this_symbol_price * amount)
               if !useBlockchain env.useBlockchainVar then
                 ⟨.pos new_position,
                   env.ledger ++ [⟨env.todayDate, current_action_id + 1, "sell", symbol, amount, new_position⟩],
                   false⟩
               else
                 if !truthy env.walletAddress || !truthy env.privateKey then
                   ⟨.err { error := "Blockchain transaction failed: ARB_WALLET_ADDRESS and ARB_PRIVATE_KEY must be set for blockchain trading",
                           symbol := some symbol, date := some env.todayDate }, env.ledger, false⟩
                 else
                   match env.stockAddress symbol with
                   | none =>
                       ⟨.err { error := "Blockchain transaction failed: Stock token address not found for " ++ symbol,
                               symbol := some symbol, date := some env.todayDate }, env.ledger, false⟩
                   | some _ =>
                     match env.chainSubmit with
                     | .error e =>
                         ⟨.err { error := "Blockchain transaction failed: " ++ e,
                                 symbol := some symbol, date := some env.todayDate }, env.ledger, true⟩
                     | .ok _ => ⟨.pos new_position, env.ledger, true⟩) := by
  unfold sell
  rw [hsig]
  by_cases hm : marketOf symbol = "cn"
  · simp [hm, hlotok hm]
  · simp [hm]

theorem buy_load_reject (env : TradeEnv) (symbol : String) (amount : Int) (s e : String)
    (hsig : env.signature = some s)
    (hlotok : marketOf symbol = "cn" → Int.fmod amount 100 = 0)
    (hload : env.positionLoad = .error e) :
    buy env symbol amount =
      ⟨.err { error := "Failed to load latest position: " ++ e,
              symbol := some symbol, date := some env.todayDate }, env.ledger, false⟩ := by
  rw [buy_past_lot env symbol amount s hsig hlotok, hload]

theorem sell_load_raise (env : TradeEnv) (symbol : String) (amount : Int) (s e : String)
    (hsig : env.signature = some s)
    (hlotok : marketOf symbol = "cn" → Int.fmod amount 100 = 0)
    (hload : env.positionLoad = .error e) :
    sell env symbol amount = ⟨.raised e, env.ledger, false⟩ := by
  rw [sell_past_lot env symbol amount s hsig hlotok, hload]

theorem buy_price_none_reject (env : TradeEnv) (symbol : String) (amount : Int) (s : String)
    (pos₀ : Position) (aid : Int)
    (hsig : env.signature = some s)
    (hlotok : marketOf symbol = "cn" → Int.fmod amount 100 = 0)
    (hload : env.positionLoad = .ok (pos₀, aid))
    (hprice : env.price symbol = none) :
    buy env symbol amount =
      ⟨.err { error := "Symbol " ++ symbol ++ " not found! This action will not be allowed.",
              symbol := some symbol, date := some env.todayDate }, env.ledger, false⟩ := by
  rw [buy_past_lot env symbol amount s hsig hlotok, hload, hprice]

theorem sell_price_none_reject (env : TradeEnv) (symbol : String) (amount : Int) (s : String)
    (pos₀ : Position) (aid : Int)
    (hsig : env.signature = some s)
    (hlotok : marketOf symbol = "cn" → Int.fmod amount 100 = 0)
    (hload : env.positionLoad = .ok (pos₀, aid))
    (hprice : env.price symbol = none) :
    sell env symbol amount =
      ⟨.err { error := "Symbol " ++ symbol ++ " not found! This action will not be allowed.",
              symbol := some symbol, date := some env.todayDate }, env.ledger, false⟩ := by
  rw [sell_past_lot env symbol amount s hsig hlotok, hload, hprice]

theorem buy_cash_reject (env : TradeEnv) (symbol : String) (amount : Int) (s : String)
    (pos₀ : Position) (aid : Int) (pr cash : ℚ)
    (hsig : env.signature = some s)
    (hlotok : marketOf symbol = "cn" → Int.fmod amount 100 = 0)
    (hload : env.positionLoad = .ok (pos₀, aid))
    (hprice : env.price symbol = some pr)
    (hcash : dget pos₀ "CASH" = some cash)
    (hneg : cash - pr * amount < 0) :
    buy env symbol amount =
      ⟨.err { error := "Insufficient cash! This action will not be allowed.",
              required_cash := some (pr * amount),
              cash_available := some (dgetD pos₀ "CASH" 0),
              symbol := some symbol, date := some env.todayDate }, env.ledger, false⟩ := by
  rw [buy_past_lot env symbol amount s hsig hlotok, hload, hprice]
  simp [hcash, hneg]

theorem sell_no_position_reject (env : TradeEnv) (symbol : String) (amount : Int) (s : String)
    (pos₀ : Position) (aid : Int) (pr : ℚ)
    (hsig : env.signature = some s)
    (hlotok : marketOf symbol = "cn" → Int.fmod amount 100 = 0)
    (hload : env.positionLoad = .ok (pos₀, aid))
    (hprice : env.price symbol = some pr)
    (hmem : dmem pos₀ symbol = false) :
    sell env symbol amount =
      ⟨.err { error := "No position for " ++ symbol ++ "! This action will not be allowed.",
              symbol := some symbol, date := some env.todayDate }, env.ledger, false⟩ := by
  rw [sell_past_lot env symbol amount s hsig hlotok, hload, hprice]
  simp [hmem]

theorem sell_shares_reject (env : TradeEnv) (symbol : String) (amount : Int) (s : String)
    (pos₀ : Position) (aid : Int) (pr : ℚ)
    (hsig : env.signature = some s)
    (hlotok : marketOf symbol = "cn" → Int.fmod amount 100 = 0)
    (hload : env.positionLoad = .ok (pos₀, aid))
    (hprice : env.price symbol = some pr)
    (hmem : dmem pos₀ symbol = true)
    (hlt : dgetD pos₀ symbol 0 < (amount : ℚ)) :
    sell env symbol amount =
      ⟨.err { error := "Insufficient shares! This action will not be allowed.",
              haveShares := some (dgetD pos₀ symbol 0),
              want_to_sell := some amount,
              symbol := some symbol, date := some env.todayDate }, env.ledger, false⟩ := by
  rw [sell_past_lot env symbol amount s hsig hlotok, hload, hprice]
  simp [hmem, hlt]

theorem sell_t1_reject (env : TradeEnv) (symbol : String) (amount : Int) (s : String)
    (pos₀ : Position) (aid : Int) (pr : ℚ)
    (hsig : env.signature = some s)
    (hcn : marketOf symbol = "cn")
    (hlot : Int.fmod amount 100 = 0)
    (hload : env.positionLoad = .ok (pos₀, aid))
    (hprice : env.price symbol = some pr)
    (hmem : dmem pos₀ symbol = true)
    (hge : ¬dgetD pos₀ symbol 0 < (amount : ℚ))
    (hb : 0 < todayBuyAmount env.ledger symbol env.todayDate)
    (hover : dgetD pos₀ symbol 0 - todayBuyAmount env.ledger symbol env.todayDate < (amount : ℚ)) :
    sell env symbol amount =
      ⟨.err { error := "T+1 restriction violated! You bought " ++ toString (todayBuyAmount env.ledger symbol env.todayDate) ++ " shares of " ++ symbol ++ " today and cannot sell them until tomorrow.",
              symbol := some symbol,
              total_position := some (dgetD pos₀ symbol 0),
              bought_today := some (todayBuyAmount env.ledger symbol env.todayDate),
              sellable_today := some (max 0 (dgetD pos₀ symbol 0 - todayBuyAmount env.ledger symbol env.todayDate)),
              want_to_sell := some amount,
              date := some env.todayDate }, env.ledger, false⟩ := by
  rw [sell_past_lot env symbol amount s hsig (fun _ => hlot), hload, hprice]
  simp [hmem, hge, hcn, hb, hover]

theorem buy_chain_fail (env : TradeEnv) (symbol : String) (amount : Int) (s : String)
    (pos₀ : Position) (aid : Int) (pr cash : ℚ) (addr msg : String)
    (hsig : env.signature = some s)
    (hlotok : marketOf symbol = "cn" → Int.fmod amount 100 = 0)
    (hload : env.positionLoad = .ok (pos₀, aid))
    (hprice : env.price symbol = some pr)
    (hcash : dget pos₀ "CASH" = some cash)
    (hnonneg : ¬cash - pr * amount < 0)
    (huse : useBlockchain env.useBlockchainVar = true)
    (hw : truthy env.walletAddress = true)
    (hk : truthy env.privateKey = true)
    (hstock : env.stockAddress symbol = some addr)
    (hsub : env.chainSubmit = .error msg) :
    buy env symbol amount =
      ⟨.err { error := "Blockchain transaction failed: " ++ msg,
              symbol := some symbol, date := some env.todayDate }, env.ledger, true⟩ := by
  rw [buy_past_lot env symbol amount s hsig hlotok, hload, hprice]
  simp [hcash, hnonneg, huse, hw, hk, hstock, hsub]

theorem sell_chain_fail (env : TradeEnv) (symbol : String) (amount : Int) (s : String)
    (pos₀ : Position) (aid : Int) (pr : ℚ) (addr msg : String)
    (hsig : env.signature = some s)
    (hlotok : marketOf symbol = "cn" → Int.fmod amount 100 = 0)
    (hload : env.positionLoad = .ok (pos₀, aid))
    (hprice : env.price symbol = some pr)
    (hmem : dmem pos₀ symbol = true)
    (hge : ¬dgetD pos₀ symbol 0 < (amount : ℚ))
    (ht1ok : ¬((marketOf symbol = "cn" ∧ todayBuyAmount env.ledger symbol env.todayDate > 0) ∧
        dgetD pos₀ symbol 0 - todayBuyAmount env.ledger symbol env.todayDate < (amount : ℚ)))
    (huse : useBlockchain env.useBlockchainVar = true)
    (hw : truthy env.walletAddress = true)
    (hk : truthy env.privateKey = true)
    (hstock : env.stockAddress symbol = some addr)
    (hsub : env.chainSubmit = .error msg) :
    sell env symbol amount =
      ⟨.err { error := "Blockchain transaction failed: " ++ msg,
              symbol := some symbol, date := some env.todayDate }, env.ledger, true⟩ := by
  rw [sell_past_lot env symbol amount s hsig hlotok, hload, hprice]
  simp only [hmem, hge, huse, hw, hk, hstock, hsub]
  simp [ht1ok]

/-- In chain mode a `buy` call never writes the ledger file. -/
theorem buy_ledger_chain (env : TradeEnv) (symbol : String) (amount : Int)
    (huse : useBlockchain env.useBlockchainVar = true) :
    (buy env symbol amount).ledger = env.ledger := by
  unfold buy
  simp only [huse, Bool.not_true, Bool.false_eq_true, if_false]
  repeat first | rfl | split

/-- In chain mode a `sell` call never writes the ledger file. -/
theorem sell_ledger_chain (env : TradeEnv) (symbol : String) (amount : Int)
    (huse : useBlockchain env.useBlockchainVar = true) :
    (sell env symbol amount).ledger = env.ledger := by
  unfold sell
  simp only [huse, Bool.not_true, Bool.false_eq_true, if_false]
  repeat first | rfl | split

/-- C3: for every buy or sell dispatched in chain mode whose chain
submission raises, the call returns a structured error dictionary, the
computed position is discarded, and no ledger record is written, so the
stored state is exactly what it was before the request.  The shared
hypotheses are exactly the gates common to both calls (identity, lot
size, position load, price, chain-mode dispatch, failing submission);
each conjunct then adds only its own call's remaining validations, so a
chain-failing buy needs no sell-side condition and vice versa. -/
theorem c3_chain_failure_no_mutation (env : TradeEnv) (symbol : String) (amount : Int)
    (s : String) (pos₀ : Position) (aid : Int) (pr : ℚ) (addr msg : String)
    (hsig : env.signature = some s)
    (hlotok : marketOf symbol = "cn" → Int.fmod amount 100 = 0)
    (hload : env.positionLoad = .ok (pos₀, aid))
    (hprice : env.price symbol = some pr)
    (huse : useBlockchain env.useBlockchainVar = true)
    (hw : truthy env.walletAddress = true)
    (hk : truthy env.privateKey = true)
    (hstock : env.stockAddress symbol = some addr)
    (hsub : env.chainSubmit = .error msg) :
    (∀ cash, dget pos₀ "CASH" = some cash → ¬cash - pr * amount < 0 →
      buy env symbol amount =
        ⟨.err { error := "Blockchain transaction failed: " ++ msg,
                symbol := some symbol, date := some env.todayDate }, env.ledger, true⟩) ∧
    (dmem pos₀ symbol = true → ¬dgetD pos₀ symbol 0 < (amount : ℚ) →
      ¬((marketOf symbol = "cn" ∧ todayBuyAmount env.ledger symbol env.todayDate > 0) ∧
          dgetD pos₀ symbol 0 - todayBuyAmount env.ledger symbol env.todayDate < (amount : ℚ)) →
      sell env symbol amount =
        ⟨.err { error := "Blockchain transaction failed: " ++ msg,
                symbol := some symbol, date := some env.todayDate }, env.ledger, true⟩) :=
  ⟨fun cash hcash hnonneg =>
      buy_chain_fail env symbol amount s pos₀ aid pr cash addr msg hsig hlotok hload hprice
        hcash hnonneg huse hw hk hstock hsub,
    fun hmem hge ht1ok =>
      sell_chain_fail env symbol amount s pos₀ aid pr addr msg hsig hlotok hload hprice
        hmem hge ht1ok huse hw hk hstock hsub⟩

/-- Chain-mode environment whose submission fails.  `MSFT` is priced and
token-mapped but absent from the position, so a chain-failing buy of it
exercises the buy conclusion with no sell-side validation in sight. -/
def envC3 : TradeEnv :=
  { signature := some "agent"
    todayDate := "2025-11-11"
    price := fun s => if s = "AAPL" then some 150 else if s = "MSFT" then some 300 else none
    positionLoad := .ok ([("CASH", 10000), ("AAPL", 10)], -1)
    useBlockchainVar := none
    walletAddress := some "0xWallet"
    privateKey := some "0xKey"
    stockAddress := fun s =>
      if s = "AAPL" then some "0xToken" else if s = "MSFT" then some "0xToken2" else none
    chainSubmit := .error "connection refused"
    ledger := [] }

theorem c3_chain_failure_no_mutation_witness :
    buy envC3 "AAPL" 10 =
      ⟨.err { error := "Blockchain transaction failed: " ++ "connection refused",
              symbol := some "AAPL", date := some envC3.todayDate }, envC3.ledger, true⟩ ∧
    buy envC3 "MSFT" 10 =
      ⟨.err { error := "Blockchain transaction failed: " ++ "connection refused",
              symbol := some "MSFT", date := some envC3.todayDate }, envC3.ledger, true⟩ ∧
    sell envC3 "AAPL" 10 =
      ⟨.err { error := "Blockchain transaction failed: " ++ "connection refused",
              symbol := some "AAPL", date := some envC3.todayDate }, envC3.ledger, true⟩ := by
  refine ⟨?_, ?_, ?_⟩
  · exact (c3_chain_failure_no_mutation envC3 "AAPL" 10 "agent"
      [("CASH", 10000), ("AAPL", 10)] (-1) 150 "0xToken" "connection refused" rfl (by decide)
      rfl rfl (by decide) (by decide) (by decide) (by decide) rfl).1 10000 rfl (by norm_num)
  · exact (c3_chain_failure_no_mutation envC3 "MSFT" 10 "agent"
      [("CASH", 10000), ("AAPL", 10)] (-1) 300 "0xToken2" "connection refused" rfl (by decide)
      rfl rfl (by decide) (by decide) (by decide) (by decide) rfl).1 10000 rfl (by norm_num)
  · exact (c3_chain_failure_no_mutation envC3 "AAPL" 10 "agent"
      [("CASH", 10000), ("AAPL", 10)] (-1) 150 "0xToken" "connection refused" rfl (by decide)
      rfl rfl (by decide) (by decide) (by decide) (by decide) rfl).2 (by decide)
      (by norm_num +decide [dgetD, dget]) (by intro h; exact absurd h.1.1 (by decide))

/-- C4: a sell of a CN symbol on a date where the ledger records `b > 0`
shares bought the same day is rejected without mutation whenever the
requested amount exceeds held minus `b`, reporting `bought_today = b`,
the (clamped) sellable amount and the requested amount; `b` is the
re-scan of the ledger for same-day buys of that symbol. -/
theorem c4_t1_restriction (env : TradeEnv) (symbol : String) (amount : Int) (s : String)
    (pos₀ : Position) (aid : Int) (pr : ℚ) (b : Int)
    (hsig : env.signature = some s)
    (hcn : marketOf symbol = "cn")
    (hlot : Int.fmod amount 100 = 0)
    (hload : env.positionLoad = .ok (pos₀, aid))
    (hprice : env.price symbol = some pr)
    (hmem : dmem pos₀ symbol = true)
    (hge : ¬dgetD pos₀ symbol 0 < (amount : ℚ))
    (hb : todayBuyAmount env.ledger symbol env.todayDate = b)
    (hbpos : 0 < b)
    (hover : dgetD pos₀ symbol 0 - b < (amount : ℚ)) :
    sell env symbol amount =
      ⟨.err { error := "T+1 restriction violated! You bought " ++ toString b ++ " shares of " ++ symbol ++ " today and cannot sell them until tomorrow.",
              symbol := some symbol,
              total_position := some (dgetD pos₀ symbol 0),
              bought_today := some b,
              sellable_today := some (max 0 (dgetD pos₀ symbol 0 - b)),
              want_to_sell := some amount,
              date := some env.todayDate }, env.ledger, false⟩ := by
  subst hb
  exact sell_t1_reject env symbol amount s pos₀ aid pr hsig hcn hlot hload hprice hmem hge
    hbpos hover

/-- File-mode environment where 100 shares of a CN symbol were bought
today and the agent now tries to sell them the same day. -/
def envC4 : TradeEnv :=
  { signature := some "agent"
    todayDate := "2025-11-11"
    price := fun s => if s = "600519.SH" then some 1500 else none
    positionLoad := .ok ([("CASH", 100000), ("600519.SH", 100)], 1)
    useBlockchainVar := some "false"
    walletAddress := none
    privateKey := none
    stockAddress := fun _ => none
    chainSubmit := .error "network unavailable"
    ledger := [⟨"2025-11-11", 1, "buy", "600519.SH", 100,
                [("CASH", 100000), ("600519.SH", 100)]⟩] }

theorem c4_t1_restriction_witness :
    sell envC4 "600519.SH" 100 =
      ⟨.err { error := "T+1 restriction violated! You bought " ++ toString (100 : Int) ++ " shares of " ++ "600519.SH" ++ " today and cannot sell them until tomorrow.",
              symbol := some "600519.SH",
              total_position := some (dgetD [("CASH", 100000), ("600519.SH", 100)] "600519.SH" 0),
              bought_today := some 100,
              sellable_today := some (max 0 (dgetD [("CASH", 100000), ("600519.SH", 100)] "600519.SH" 0 - (100 : Int))),
              want_to_sell := some 100,
              date := some envC4.todayDate }, envC4.ledger, false⟩ :=
  c4_t1_restriction envC4 "600519.SH" 100 "agent" [("CASH", 100000), ("600519.SH", 100)] 1
    1500 100 rfl (by decide) (by decide) rfl rfl (by decide)
    (by norm_num +decide [dgetD, dget]) (by decide) (by decide) (by norm_num +decide [dgetD, dget])

/-- C5: a buy or sell of a `.SH`/`.SZ` symbol with a quantity that is not
a multiple of 100 is rejected with the two suggested rounded quantities
`(amount//100)*100` and `((amount//100)+1)*100`, with no ledger write and
no chain submission. -/
theorem c5_lot_size_reject (env : TradeEnv) (symbol : String) (amount : Int) (s : String)
    (hsig : env.signature = some s)
    (hsfx : strEndsWith symbol ".SH" = true ∨ strEndsWith symbol ".SZ" = true)
    (hlot : Int.fmod amount 100 ≠ 0) :
    buy env symbol amount =
      ⟨.err { error := "Chinese A-shares must be traded in multiples of 100 shares (1 lot = 100 shares). You tried to buy " ++ toString amount ++ " shares.",
              symbol := some symbol, amount := some amount, date := some env.todayDate,
              suggestion := some (Int.fdiv amount 100 * 100, (Int.fdiv amount 100 + 1) * 100) },
        env.ledger, false⟩ ∧
    sell env symbol amount =
      ⟨.err { error := "Chinese A-shares must be traded in multiples of 100 shares (1 lot = 100 shares). You tried to sell " ++ toString amount ++ " shares.",
              symbol := some symbol, amount := some amount, date := some env.todayDate,
              suggestion := some (Int.fdiv amount 100 * 100, (Int.fdiv amount 100 + 1) * 100) },
        env.ledger, false⟩ := by
  have hcn : marketOf symbol = "cn" := by
    rcases hsfx with h | h <;> simp [marketOf, h]
  exact ⟨buy_lot_reject env symbol amount s hsig hcn hlot,
    sell_lot_reject env symbol amount s hsig hcn hlot⟩

theorem c5_lot_size_reject_witness :
    buy envC1buy "600519.SH" 150 =
      ⟨.err { error := "Chinese A-shares must be traded in multiples of 100 shares (1 lot = 100 shares). You tried to buy " ++ toString (150 : Int) ++ " shares.",
              symbol := some "600519.SH", amount := some 150, date := some envC1buy.todayDate,
              suggestion := some (Int.fdiv 150 100 * 100, (Int.fdiv 150 100 + 1) * 100) },
        envC1buy.ledger, false⟩ ∧
    sell envC1buy "600519.SH" 150 =
      ⟨.err { error := "Chinese A-shares must be traded in multiples of 100 shares (1 lot = 100 shares). You tried to sell " ++ toString (150 : Int) ++ " shares.",
              symbol := some "600519.SH", amount := some 150, date := some envC1buy.todayDate,
              suggestion := some (Int.fdiv 150 100 * 100, (Int.fdiv 150 100 + 1) * 100) },
        envC1buy.ledger, false⟩ :=
  c5_lot_size_reject envC1buy "600519.SH" 150 "agent" rfl (Or.inl (by decide)) (by decide)

/-- C6: a missing agent identity (SIGNATURE) is raised, while each of the
listed validation failures (lot size, unknown symbol/missing price,
insufficient funds, insufficient shares, T+1) is returned to the caller
as a structured error dictionary, never raised. -/
theorem c6_raise_vs_return (env : TradeEnv) (symbol : String) (amount : Int) :
    (env.signature = none →
      (buy env symbol amount).outcome = .raised "SIGNATURE environment variable is not set" ∧
      (sell env symbol amount).outcome = .raised "SIGNATURE environment variable is not set") ∧
    (∀ s, env.signature = some s →
      (marketOf symbol = "cn" → Int.fmod amount 100 ≠ 0 →
        Outcome.isErrDict (buy env symbol amount).outcome = true ∧
        Outcome.isErrDict (sell env symbol amount).outcome = true) ∧
      (∀ pos₀ aid, env.positionLoad = .ok (pos₀, aid) →
        (marketOf symbol = "cn" → Int.fmod amount 100 = 0) →
        (env.price symbol = none →
          Outcome.isErrDict (buy env symbol amount).outcome = true ∧
          Outcome.isErrDict (sell env symbol amount).outcome = true) ∧
        (∀ pr cash, env.price symbol = some pr → dget pos₀ "CASH" = some cash →
          cash - pr * amount < 0 →
          Outcome.isErrDict (buy env symbol amount).outcome = true) ∧
        (∀ pr, env.price symbol = some pr → dmem pos₀ symbol = false →
          Outcome.isErrDict (sell env symbol amount).outcome = true) ∧
        (∀ pr, env.price symbol = some pr → dmem pos₀ symbol = true →
          dgetD pos₀ symbol 0 < (amount : ℚ) →
          Outcome.isErrDict (sell env symbol amount).outcome = true) ∧
        (∀ pr, env.price symbol = some pr → dmem pos₀ symbol = true →
          ¬dgetD pos₀ symbol 0 < (amount : ℚ) → marketOf symbol = "cn" →
          0 < todayBuyAmount env.ledger symbol env.todayDate →
          dgetD pos₀ symbol 0 - todayBuyAmount env.ledger symbol env.todayDate < (amount : ℚ) →
          Outcome.isErrDict (sell env symbol amount).outcome = true))) := by
  refine ⟨fun hsig => ?_, fun s hsig => ⟨fun hcn hlot => ?_, fun pos₀ aid hload hlotok => ?_⟩⟩
  · rw [buy_sig_none env symbol amount hsig, sell_sig_none env symbol amount hsig]
    exact ⟨rfl, rfl⟩
  · rw [buy_lot_reject env symbol amount s hsig hcn hlot,
      sell_lot_reject env symbol amount s hsig hcn hlot]
    exact ⟨rfl, rfl⟩
  · refine ⟨fun hprice => ?_, fun pr cash hprice hcash hneg => ?_, fun pr hprice hmem => ?_,
      fun pr hprice hmem hlt => ?_, fun pr hprice hmem hge hcn hb hover => ?_⟩
    · rw [buy_price_none_reject env symbol amount s pos₀ aid hsig hlotok hload hprice,
        sell_price_none_reject env symbol amount s pos₀ aid hsig hlotok hload hprice]
      exact ⟨rfl, rfl⟩
    · rw [buy_cash_reject env symbol amount s pos₀ aid pr cash hsig hlotok hload hprice
        hcash hneg]
      rfl
    · rw [sell_no_position_reject env symbol amount s pos₀ aid pr hsig hlotok hload hprice hmem]
      rfl
    · rw [sell_shares_reject env symbol amount s pos₀ aid pr hsig hlotok hload hprice hmem hlt]
      rfl
    · rw [sell_t1_reject env symbol amount s pos₀ aid pr hsig hcn (hlotok hcn) hload hprice
        hmem hge hb hover]
      rfl

/-- Environment with no agent identity configured. -/
def envC6none : TradeEnv :=
  { envC1buy with signature := none }

theorem c6_raise_vs_return_witness :
    ((buy envC6none "AAPL" 10).outcome = .raised "SIGNATURE environment variable is not set" ∧
      (sell envC6none "AAPL" 10).outcome = .raised "SIGNATURE environment variable is not set") ∧
    (Outcome.isErrDict (buy envC1buy "600519.SH" 150).outcome = true ∧
      Outcome.isErrDict (sell envC1buy "600519.SH" 150).outcome = true) ∧
    (Outcome.isErrDict (buy envC1buy "MSFT" 10).outcome = true ∧
      Outcome.isErrDict (sell envC1buy "MSFT" 10).outcome = true) ∧
    Outcome.isErrDict (buy envC1buy "AAPL" 100).outcome = true ∧
    Outcome.isErrDict (sell envC1buy "AAPL" 5).outcome = true ∧
    Outcome.isErrDict (sell envC1sell "AAPL" 50).outcome = true ∧
    Outcome.isErrDict (sell envC4 "600519.SH" 100).outcome = true := by
  refine ⟨(c6_raise_vs_return envC6none "AAPL" 10).1 rfl, ?_, ?_, ?_, ?_, ?_, ?_⟩
  · exact ((c6_raise_vs_return envC1buy "600519.SH" 150).2 "agent" rfl).1 (by decide) (by decide)
  · exact (((c6_raise_vs_return envC1buy "MSFT" 10).2 "agent" rfl).2
      [("CASH", 10000)] 0 rfl (by decide)).1 rfl
  · exact (((c6_raise_vs_return envC1buy "AAPL" 100).2 "agent" rfl).2
      [("CASH", 10000)] 0 rfl (by decide)).2.1 150 10000 rfl rfl (by norm_num)
  · exact (((c6_raise_vs_return envC1buy "AAPL" 5).2 "agent" rfl).2
      [("CASH", 10000)] 0 rfl (by decide)).2.2.1 150 rfl (by decide)
  · exact (((c6_raise_vs_return envC1sell "AAPL" 50).2 "agent" rfl).2
      [("CASH", 8500), ("AAPL", 10)] 1 rfl (by decide)).2.2.2.1 150 rfl (by decide)
      (by norm_num +decide [dgetD, dget])
  · exact (((c6_raise_vs_return envC4 "600519.SH" 100).2 "agent" rfl).2
      [("CASH", 100000), ("600519.SH", 100)] 1 rfl (by decide)).2.2.2.2 1500 rfl (by decide)
      (by norm_num +decide [dgetD, dget]) (by decide) (by decide)
      (by norm_num +decide [dgetD, dget])

/-- C9: with USE_BLOCKCHAIN_POSITION unset the order dispatches in chain
mode, not file-ledger mode: the flag defaults to "true", exactly the
case-insensitive values "true"/"1"/"yes" select chain mode, and an unset
flag never writes the ledger file. -/
theorem c9_blockchain_default (env : TradeEnv) (symbol : String) (amount : Int) :
    useBlockchain none = true ∧
    (∀ v, useBlockchain (some v) = true ↔
      (strToLower v = "true" ∨ strToLower v = "1" ∨ strToLower v = "yes")) ∧
    (env.useBlockchainVar = none →
      (buy env symbol amount).ledger = env.ledger ∧
      (sell env symbol amount).ledger = env.ledger) := by
  refine ⟨by decide, fun v => ?_, fun hvar => ?_⟩
  · simp [useBlockchain, Bool.or_eq_true, decide_eq_true_eq, or_assoc]
  · have huse : useBlockchain env.useBlockchainVar = true := by
      rw [hvar]; decide
    exact ⟨buy_ledger_chain env symbol amount huse, sell_ledger_chain env symbol amount huse⟩

theorem c9_blockchain_default_witness :
    (useBlockchain (some "TrUe") = true ↔
      (strToLower "TrUe" = "true" ∨ strToLower "TrUe" = "1" ∨ strToLower "TrUe" = "yes")) ∧
    (buy envC3 "AAPL" 10).ledger = envC3.ledger ∧
    (sell envC3 "AAPL" 10).ledger = envC3.ledger :=
  ⟨(c9_blockchain_default envC3 "AAPL" 10).2.1 "TrUe",
    (c9_blockchain_default envC3 "AAPL" 10).2.2 rfl⟩

/-!
Concurrency model for the file-mode ledger (claim C2).

`buy` takes the per-agent flock at tool_trade.py:105, but the `with`
block ends at line 111: only the `get_latest_position` read runs under
the lock, and the `position.jsonl` append at line 164 runs after the
lock is released.  `sell` (line 342) performs the same read with no lock
at all.  The model below replays two concurrent file-mode orders at the
granularity of those four atomic actions.
-/

/-- The atomic actions of one file-mode order: acquire/release the
per-agent flock, read the latest ledger id, append the next record. -/
inductive LStep where
  | lock
  | read
  | append
  | unlock
deriving DecidableEq, Repr

/-- One thread: its remaining steps and the last `current_action_id` it
read. -/
structure ThreadCfg where
  steps : List LStep
  readId : Int
deriving DecidableEq, Repr

/-- Two concurrent orders for the same agent identity: the shared ledger
file (list of record ids in file order), the flock holder, and the two
threads. -/
structure LockState where
  ledger : List Int
  holder : Option Bool
  t0 : ThreadCfg
  t1 : ThreadCfg
deriving DecidableEq, Repr

/-- `get_latest_position`: the highest id in the ledger (0 when empty). -/
def maxId (l : List Int) : Int := l.foldl max 0

def threadOf (st : LockState) (tid : Bool) : ThreadCfg :=
  if tid then st.t1 else st.t0

def setThread (st : LockState) (tid : Bool) (c : ThreadCfg) : LockState :=
  if tid then { st with t1 := c } else { st with t0 := c }

/-- Run one scheduling quantum of thread `tid`: execute its next step if
runnable (a `lock` step blocks while the other thread holds the flock). -/
def lockStepRun (st : LockState) (tid : Bool) : LockState :=
  let c := threadOf st tid
  match c.steps with
  | [] => st
  | s :: rest =>
    match s with
    | .lock =>
      match st.holder with
      | none => setThread { st with holder := some tid } tid { c with steps := rest }
      | some _ => st
    | .read => setThread st tid { steps := rest, readId := maxId st.ledger }
    | .append =>
        setThread { st with ledger := st.ledger ++ [c.readId + 1] } tid { c with steps := rest }
    | .unlock =>
        if st.holder = some tid then setThread { st with holder := none } tid { c with steps := rest }
        else setThread st tid { c with steps := rest }

def runSchedule (st : LockState) : List Bool → LockState
  | [] => st
  | tid :: rest => runSchedule (lockStepRun st tid) rest

/-- Step order of file-mode `buy` as the source has it: the flock guards
only the read; the append happens after the release. -/
def codeBuySteps : List LStep := [.lock, .read, .unlock, .append]

/-- Step order the claim describes: the lock held across the whole
read-validate-compute-append sequence. -/
def claimBuySteps : List LStep := [.lock, .read, .append, .unlock]

/-- Both threads start with the same step list over an empty ledger. -/
def initLockState (steps : List LStep) : LockState :=
  ⟨[], none, ⟨steps, 0⟩, ⟨steps, 0⟩⟩

/-- Gap-free strictly increasing ids. -/
def strictIncr : List Int → Bool
  | [] => true
  | [_] => true
  | a :: b :: rest => a < b && strictIncr (b :: rest)

/-- All two-thread schedules of length `n`. -/
def allSchedules : Nat → List (List Bool)
  | 0 => [[]]
  | n + 1 => (allSchedules n).flatMap fun s => [false :: s, true :: s]

/-- C2 (refuted on the code, confirming the bug): with the source's lock
scope, the interleaving in which both orders run their locked read before
either appends makes both read `lastId = 0` and both append id 1 — a
duplicated, non-increasing id sequence; under the lock scope the claim
describes, the same interleaving leaves the writer blocked until the
append is done, every schedule keeps the ledger strictly increasing, and
the full serial run yields the gap-free ids 1, 2. -/
theorem c2_lock_scope_bug :
    (runSchedule (initLockState codeBuySteps)
        [false, false, false, true, true, true, false, true]).ledger = [1, 1] ∧
    strictIncr (runSchedule (initLockState codeBuySteps)
        [false, false, false, true, true, true, false, true]).ledger = false ∧
    (runSchedule (initLockState claimBuySteps)
        [false, false, false, false, true, true, true, true]).ledger = [1, 2] ∧
    (allSchedules 8).all
      (fun s => strictIncr (runSchedule (initLockState claimBuySteps) s).ledger) = true := by
  set_option maxRecDepth 4000 in decide

/-!
Embedding of src/agent_tools/blockchain/evm.py: the gas-pricing cache
with its retry loop (claims C7), the transaction signer (C10), and the
`send_token_with_memo` flow with its zero-balance guard (C8).  Web3/RPC
primitives (`get_block`, `max_priority_fee`, `estimate_gas`,
`send_raw_transaction`, `Account.from_key`, calldata encoding) are
environment oracles; the embedded code is the client's own control flow.
-/

/-- `MAX_RETRIES = 5`. -/
def MAX_RETRIES : Nat := 5

/-- `COOLDOWN = 10  # seconds`. -/
def COOLDOWN : Nat := 10

/-- `_gas_cache_timeout = 15  # Cache gas prices for 15 seconds`. -/
def GAS_CACHE_TIMEOUT : ℚ := 15

/-- The `Blockchain` IntEnum. -/
inductive Blockchain where
  | NONE
  | CHIA
  | SOLANA
  | ARBITRUM
  | BASE
  | ETHEREUM
  | EVM
  | BNB
deriving DecidableEq, Repr

/-- `_get_chain_id` via `CHAIN_IDS` (mainnet); `__init__` raises for the
other variants, so they never reach a built transaction. -/
def chainIdOf : Blockchain → Int
  | .ETHEREUM => 1
  | .ARBITRUM => 42161
  | .BASE => 8453
  | .BNB => 56
  | _ => 0

/-- What `w3.eth.get_block('latest')` returns, restricted to the fields
the client reads. -/
structure BlockInfo where
  number : Int
  baseFeePerGas : Option Int
deriving DecidableEq, Repr

/-- The `gas_data` dict assembled by `get_gas_pricing_data`. -/
structure GasData where
  block_number : Int
  base_fee : Option Int
  use_eip1559 : Bool
  timestamp : ℚ
  priority_fee : Option Int := none
  max_fee_per_gas : Option Int := none
  max_priority_fee_per_gas : Option Int := none
  gas_price : Option Int := none
deriving DecidableEq, Repr

/-- The client's cache fields `_gas_price_cache` / `_gas_price_cache_time`. -/
structure GasState where
  cache : Option GasData
  cacheTime : ℚ
deriving DecidableEq, Repr

/-- RPC answers for one `get_gas_pricing_data` call: the current time and
the result of `get_block('latest')` on each retry attempt, plus the fee
reads (modelled as reliable once the block fetch succeeded). -/
structure GasEnv where
  now : ℚ
  blockAt : Nat → Except String BlockInfo
  maxPriorityFee : Int
  gasPrice : Int

/-- Assemble `gas_data` from a fetched block (lines 282-303). -/
def mkGasData (env : GasEnv) (b : BlockInfo) : GasData :=
  match b.baseFeePerGas with
  | some base_fee =>
      { block_number := b.number, base_fee := some base_fee, use_eip1559 := true,
        timestamp := env.now,
        priority_fee := some env.maxPriorityFee,
        max_fee_per_gas := some (base_fee * 2 + env.maxPriorityFee),
        max_priority_fee_per_gas := some env.maxPriorityFee }
  | none =>
      { block_number := b.number, base_fee := none, use_eip1559 := false,
        timestamp := env.now, gas_price := some env.gasPrice }

/-- Outcome of one `get_gas_pricing_data` call: the returned snapshot or
the propagated exception, the updated cache fields, the number of RPC
block fetches attempted, and the total time spent in cooldown sleeps. -/
structure GasFetchResult where
  result : Except String GasData
  state : GasState
  calls : Nat
  slept : Nat
deriving Repr

/-- The `for attempt in range(MAX_RETRIES)` loop, over the remaining
attempt indices: on failure of a non-final attempt sleep `COOLDOWN` and
retry; on failure of the final attempt re-raise the exception. -/
def gasFetchGo (env : GasEnv) : List Nat → Nat → Nat → Except String GasData × Nat × Nat
  | [], calls, slept => (.error "unreachable: range(MAX_RETRIES) is nonempty", calls, slept)
  | [a], calls, slept =>
      match env.blockAt a with
      | .ok b => (.ok (mkGasData env b), calls + 1, slept)
      | .error e => (.error e, calls + 1, slept)
  | a :: rest, calls, slept =>
      match env.blockAt a with
      | .ok b => (.ok (mkGasData env b), calls + 1, slept)
      | .error _ => gasFetchGo env rest (calls + 1) (slept + COOLDOWN)

/-- The cache-miss path: run the retry loop and update the cache on
success (lines 276-318). -/
def freshGasFetch (st : GasState) (env : GasEnv) : GasFetchResult :=
  match gasFetchGo env (List.range MAX_RETRIES) 0 0 with
  | (.ok g, calls, slept) => ⟨.ok g, ⟨some g, env.now⟩, calls, slept⟩
  | (.error e, calls, slept) => ⟨.error e, st, calls, slept⟩

/-- `get_gas_pricing_data` (lines 265-318): return the cached snapshot if
it is younger than the cache horizon, else fetch fresh. -/
def get_gas_pricing_data (st : GasState) (env : GasEnv) : GasFetchResult :=
  match st.cache with
  | some g =>
      if env.now - st.cacheTime < GAS_CACHE_TIMEOUT then ⟨.ok g, st, 0, 0⟩
      else freshGasFetch st env
  | none => freshGasFetch st env

/-- Python `s.startswith(prefix)`. -/
def strStartsWith (s pre : String) : Bool :=
  pre.data.isPrefixOf s.data

/-- Python `s[2:]`. -/
def strDrop (s : String) (n : Nat) : String :=
  ⟨s.data.drop n⟩

/-- An unsigned transaction dict as `send_token_with_memo` builds it. -/
structure Tx where
  chainId : Int
  senderAddr : String
  nonce : Int
  data : String
  gas : Int := 0
  txType : Option Int := none
  maxFeePerGas : Option Int := none
  maxPriorityFeePerGas : Option Int := none
  gasPrice : Option Int := none
deriving DecidableEq, Repr

/-- External signing primitives: `Account.from_key(k).address` (which can
raise on a malformed key) and the raw bytes `account.sign_transaction`
would produce. -/
structure SignEnv where
  fromKey : String → Except String String
  signedBytes : String

/-- `_sign_transaction(transaction, private_key)` (lines 338-377).  The
whole body sits under `if private_key:`; there is no `else` branch, so a
`None` or empty key falls off the end of the function and Python returns
`None` — modelled as `.ok none`. -/
def sign_transaction (env : SignEnv) (transaction : Tx) (private_key : Option String) :
    Except String (Option String) :=
  if truthy private_key then
    let pk := private_key.getD ""
    let private_key_clean := if strStartsWith pk "0x" then strDrop pk 2 else pk
    match env.fromKey private_key_clean with
    | .error e => .error e
    | .ok address =>
      if strToLower address ≠ strToLower transaction.senderAddr then
        .error ("Private key address " ++ address ++ " does not match transaction sender "
          ++ transaction.senderAddr)
      else
        .ok (some env.signedBytes)
  else
    .ok none

/-- External collaborators of one `send_token_with_memo` call. -/
structure SendEnv where
  /-- `Account.from_key(k).address`. -/
  fromKey : String → Except String String
  /-- raw bytes of `account.sign_transaction(transaction)`. -/
  signedBytes : String
  /-- `w3.to_checksum_address`. -/
  checksum : String → String
  /-- `get_account_data(address)`: `(nonce, balance)` or the raised error. -/
  accountData : Except String (Int × Int)
  /-- RPC behaviour of the nested `get_gas_pricing_data` call. -/
  gasEnv : GasEnv
  /-- calldata of `contract.functions.transfer(recipient, amount)` on
  the contract at the given token address. -/
  buildData : String → String → Int → String
  /-- `memo_text.encode('utf-8').hex()`. -/
  hexEncode : String → String
  /-- `w3.eth.estimate_gas(transaction)`. -/
  estimateGas : Except String Int
  /-- `w3.eth.send_raw_transaction(...)`: the tx hash hex or the raised
  error. -/
  broadcast : Except String String

/-- Result of one `send_token_with_memo` call: the returned hash or the
raised error, whether the transfer transaction was built, whether a
signature was produced, whether a broadcast was attempted, and the gas
cache afterwards. -/
structure SendResult where
  result : Except String String
  built : Bool
  signedTx : Bool
  broadcasted : Bool
  gasState : GasState
deriving Repr

/-- The `except` wrapper at lines 542-559.  The extra guidance suffix the
source appends from substring tests on the message (lines 547-559) only
rewords the text and is elided here. -/
def wrapSendError (e : String) : String :=
  "Error sending token transaction with memo: " ++ e

/-- `send_token_with_memo` (lines 429-559).  `int(x * 1.4)` etc. are
taken as exact rational scaling with truncation; the gas-limit value does
not feed any claim. -/
def send_token_with_memo (blockchain : Blockchain) (st : GasState) (env : SendEnv)
    (token_address recipient_address : String) (amount : Int)
    (memo_text : String) (private_key : String) : SendResult :=
  match env.fromKey private_key with
  | .error e => ⟨.error (wrapSendError e), false, false, false, st⟩
  | .ok account_address =>
    let recipient := env.checksum recipient_address
    match env.accountData with
    | .error e => ⟨.error (wrapSendError e), false, false, false, st⟩
    | .ok (nonce, balance) =>
      match get_gas_pricing_data st env.gasEnv with
      | ⟨.error e, st1, _, _⟩ => ⟨.error (wrapSendError e), false, false, false, st1⟩
      | ⟨.ok gas_data, st1, _, _⟩ =>
        if balance = 0 ∧ blockchain ≠ Blockchain.BNB then
          ⟨.error (wrapSendError ("Insufficient ETH balance for gas fees: " ++ toString balance)),
            false, false, false, st1⟩
        else
          let gas_limit : Int :=
            match env.estimateGas with
            | .ok estimated_gas =>
                if blockchain = Blockchain.ARBITRUM then Int.floor ((estimated_gas : ℚ) * (14 / 10))
                else if blockchain = Blockchain.BASE then Int.floor ((estimated_gas : ℚ) * (135 / 100))
                else if blockchain = Blockchain.BNB then Int.floor ((estimated_gas : ℚ) * (12 / 10))
                else Int.floor ((estimated_gas : ℚ) * (125 / 100))
            | .error _ =>
                if blockchain = Blockchain.ARBITRUM ∨ blockchain = Blockchain.BASE then 150000
                else 100000
          let transaction : Tx :=
            { chainId := chainIdOf blockchain
              senderAddr := account_address
              nonce := nonce
              data := env.buildData token_address recipient amount ++ env.hexEncode memo_text
              gas := gas_limit
              txType := if gas_data.use_eip1559 then some 2 else none
              maxFeePerGas := if gas_data.use_eip1559 then gas_data.max_fee_per_gas else none
              maxPriorityFeePerGas := if gas_data.use_eip1559 then gas_data.max_priority_fee_per_gas else none
              gasPrice := if gas_data.use_eip1559 then none else gas_data.gas_price }
          match sign_transaction ⟨env.fromKey, env.signedBytes⟩ transaction (some private_key) with
          | .error e => ⟨.error (wrapSendError e), true, false, false, st1⟩
          | .ok none =>
              match env.broadcast with
              | .ok h => ⟨.ok h, true, false, true, st1⟩
              | .error e => ⟨.error (wrapSendError e), true, false, true, st1⟩
          | .ok (some _) =>
              match env.broadcast with
              | .ok h => ⟨.ok h, true, true, true, st1⟩
              | .error e => ⟨.error (wrapSendError e), true, true, true, st1⟩

/-- C7: a gas-pricing fetch within the cache horizon returns the cached
snapshot unchanged with no RPC call; after the horizon a fresh fetch is
made, retrying up to 5 attempts with one 10-unit cooldown between
consecutive attempts, and the failure is propagated only after all 5
attempts fail. -/
theorem c7_gas_cache_retry (st : GasState) (env : GasEnv) :
    (∀ g, st.cache = some g → env.now - st.cacheTime < GAS_CACHE_TIMEOUT →
      get_gas_pricing_data st env = ⟨.ok g, st, 0, 0⟩) ∧
    ((st.cache = none ∨ GAS_CACHE_TIMEOUT ≤ env.now - st.cacheTime) →
      ((∀ i, i < MAX_RETRIES → ∃ e, env.blockAt i = .error e) →
        ∃ e, env.blockAt 4 = .error e ∧
          get_gas_pricing_data st env =
            ⟨.error e, st, MAX_RETRIES, (MAX_RETRIES - 1) * COOLDOWN⟩) ∧
      (∀ k b, k < MAX_RETRIES → (∀ i, i < k → ∃ e, env.blockAt i = .error e) →
        env.blockAt k = .ok b →
        get_gas_pricing_data st env =
          ⟨.ok (mkGasData env b), ⟨some (mkGasData env b), env.now⟩, k + 1, k * COOLDOWN⟩)) := by
  have hcold : (st.cache = none ∨ GAS_CACHE_TIMEOUT ≤ env.now - st.cacheTime) →
      get_gas_pricing_data st env = freshGasFetch st env := by
    intro h
    unfold get_gas_pricing_data
    rcases hc : st.cache with _ | g
    · rfl
    · rcases h with h | h
      · rw [hc] at h
        exact absurd h (by simp)
      · simp [not_lt.2 h]
  refine ⟨?_, fun hc => ⟨?_, ?_⟩⟩
  · intro g hg hlt
    unfold get_gas_pricing_data
    rw [hg]
    simp [hlt]
  · intro hfail
    obtain ⟨e0, h0⟩ := hfail 0 (by norm_num [MAX_RETRIES])
    obtain ⟨e1, h1⟩ := hfail 1 (by norm_num [MAX_RETRIES])
    obtain ⟨e2, h2⟩ := hfail 2 (by norm_num [MAX_RETRIES])
    obtain ⟨e3, h3⟩ := hfail 3 (by norm_num [MAX_RETRIES])
    obtain ⟨e4, h4⟩ := hfail 4 (by norm_num [MAX_RETRIES])
    refine ⟨e4, h4, ?_⟩
    rw [hcold hc]
    unfold freshGasFetch
    rw [show List.range MAX_RETRIES = [0, 1, 2, 3, 4] from rfl]
    simp [gasFetchGo, h0, h1, h2, h3, h4, MAX_RETRIES, COOLDOWN]
  · intro k b hk hfail hok
    rw [hcold hc]
    unfold freshGasFetch
    rw [show List.range MAX_RETRIES = [0, 1, 2, 3, 4] from rfl]
    have hk5 : k < 5 := hk
    interval_cases k
    · simp [gasFetchGo, hok, COOLDOWN]
    · obtain ⟨e0, h0⟩ := hfail 0 (by norm_num)
      simp [gasFetchGo, h0, hok, COOLDOWN]
    · obtain ⟨e0, h0⟩ := hfail 0 (by norm_num)
      obtain ⟨e1, h1⟩ := hfail 1 (by norm_num)
      simp [gasFetchGo, h0, h1, hok, COOLDOWN]
    · obtain ⟨e0, h0⟩ := hfail 0 (by norm_num)
      obtain ⟨e1, h1⟩ := hfail 1 (by norm_num)
      obtain ⟨e2, h2⟩ := hfail 2 (by norm_num)
      simp [gasFetchGo, h0, h1, h2, hok, COOLDOWN]
    · obtain ⟨e0, h0⟩ := hfail 0 (by norm_num)
      obtain ⟨e1, h1⟩ := hfail 1 (by norm_num)
      obtain ⟨e2, h2⟩ := hfail 2 (by norm_num)
      obtain ⟨e3, h3⟩ := hfail 3 (by norm_num)
      simp [gasFetchGo, h0, h1, h2, h3, hok, COOLDOWN]

/-- A cached snapshot for the C7 witness. -/
def gasDataHit : GasData :=
  { block_number := 1, base_fee := none, use_eip1559 := false, timestamp := 0 }

/-- Cache-hit environment: 10 time units after the cached fetch. -/
def gasEnvHit : GasEnv := ⟨10, fun _ => .error "rpc down", 2, 9⟩

/-- Environment where every block fetch fails. -/
def gasEnvDown : GasEnv := ⟨20, fun _ => .error "rpc down", 2, 9⟩

/-- Environment where attempts 0 and 1 fail and attempt 2 succeeds. -/
def gasEnvFlaky : GasEnv :=
  ⟨20, fun i => if i < 2 then .error "rpc down" else .ok ⟨100, some 7⟩, 2, 9⟩

theorem c7_gas_cache_retry_witness :
    get_gas_pricing_data ⟨some gasDataHit, 0⟩ gasEnvHit = ⟨.ok gasDataHit, ⟨some gasDataHit, 0⟩, 0, 0⟩ ∧
    (∃ e, gasEnvDown.blockAt 4 = .error e ∧
      get_gas_pricing_data ⟨none, 0⟩ gasEnvDown =
        ⟨.error e, ⟨none, 0⟩, MAX_RETRIES, (MAX_RETRIES - 1) * COOLDOWN⟩) ∧
    get_gas_pricing_data ⟨none, 0⟩ gasEnvFlaky =
      ⟨.ok (mkGasData gasEnvFlaky ⟨100, some 7⟩),
        ⟨some (mkGasData gasEnvFlaky ⟨100, some 7⟩), gasEnvFlaky.now⟩, 2 + 1, 2 * COOLDOWN⟩ := by
  refine ⟨?_, ?_, ?_⟩
  · exact (c7_gas_cache_retry ⟨some gasDataHit, 0⟩ gasEnvHit).1 gasDataHit rfl
      (by norm_num [GAS_CACHE_TIMEOUT, gasEnvHit])
  · exact ((c7_gas_cache_retry ⟨none, 0⟩ gasEnvDown).2 (Or.inl rfl)).1
      (fun i _ => ⟨"rpc down", rfl⟩)
  · exact ((c7_gas_cache_retry ⟨none, 0⟩ gasEnvFlaky).2 (Or.inl rfl)).2 2 ⟨100, some 7⟩
      (by norm_num [MAX_RETRIES])
      (fun i hi => ⟨"rpc down", by interval_cases i <;> rfl⟩) rfl

/-- C8: with zero native balance on a non-BNB network the send fails with
the insufficient-gas-funds error before building, signing, or
broadcasting any transaction; on BNB the zero-balance check is skipped
and the send proceeds. -/
theorem c8_zero_balance_guard (blockchain : Blockchain) (st : GasState) (env : SendEnv)
    (token recipient : String) (amount : Int) (memo pk : String) :
    (∀ addr nonce g st1 c sl, env.fromKey pk = .ok addr →
      env.accountData = .ok (nonce, 0) →
      get_gas_pricing_data st env.gasEnv = ⟨.ok g, st1, c, sl⟩ →
      blockchain ≠ Blockchain.BNB →
      send_token_with_memo blockchain st env token recipient amount memo pk =
        ⟨.error (wrapSendError ("Insufficient ETH balance for gas fees: " ++ toString (0 : Int))),
          false, false, false, st1⟩) ∧
    (∀ addr nonce g st1 c sl h, blockchain = Blockchain.BNB → pk ≠ "" →
      env.fromKey pk = .ok addr →
      env.fromKey (if strStartsWith pk "0x" then strDrop pk 2 else pk) = .ok addr →
      env.accountData = .ok (nonce, 0) →
      get_gas_pricing_data st env.gasEnv = ⟨.ok g, st1, c, sl⟩ →
      env.broadcast = .ok h →
      (send_token_with_memo blockchain st env token recipient amount memo pk).result = .ok h ∧
      (send_token_with_memo blockchain st env token recipient amount memo pk).signedTx = true ∧
      (send_token_with_memo blockchain st env token recipient amount memo pk).broadcasted = true) := by
  constructor
  · intro addr nonce g st1 c sl hfk hacct hgas hbnb
    unfold send_token_with_memo
    rw [hfk, hacct, hgas]
    simp [hbnb]
  · intro addr nonce g st1 c sl h hbnb hpk hfk hfk2 hacct hgas hbc
    subst hbnb
    unfold send_token_with_memo
    rw [hfk, hacct, hgas]
    simp only [reduceCtorEq, ne_eq, not_true_eq_false, and_false, if_false]
    unfold sign_transaction
    simp [truthy, hpk, hfk2, hbc]

/-- Send environment for the C8 witness: zero native balance, healthy
RPC, working key and broadcast. -/
def sendEnvW : SendEnv :=
  { fromKey := fun k => if k = "key" then .ok "0xABC" else .error "bad key"
    signedBytes := "rawbytes"
    checksum := fun a => a
    accountData := .ok (7, 0)
    gasEnv := ⟨0, fun _ => .ok ⟨100, some 7⟩, 2, 9⟩
    buildData := fun _ _ _ => "calldata"
    hexEncode := fun m => m
    estimateGas := .ok 100000
    broadcast := .ok "0xHASH" }

theorem c8_zero_balance_guard_witness :
    send_token_with_memo Blockchain.ETHEREUM ⟨none, 0⟩ sendEnvW "0xT" "0xR" 5 "memo" "key" =
      ⟨.error (wrapSendError ("Insufficient ETH balance for gas fees: " ++ toString (0 : Int))),
        false, false, false, ⟨some (mkGasData sendEnvW.gasEnv ⟨100, some 7⟩), 0⟩⟩ ∧
    (send_token_with_memo Blockchain.BNB ⟨none, 0⟩ sendEnvW "0xT" "0xR" 5 "memo" "key").result
        = .ok "0xHASH" ∧
    (send_token_with_memo Blockchain.BNB ⟨none, 0⟩ sendEnvW "0xT" "0xR" 5 "memo" "key").signedTx
        = true ∧
    (send_token_with_memo Blockchain.BNB ⟨none, 0⟩ sendEnvW "0xT" "0xR" 5 "memo" "key").broadcasted
        = true := by
  refine ⟨?_, ?_⟩
  · exact (c8_zero_balance_guard Blockchain.ETHEREUM ⟨none, 0⟩ sendEnvW "0xT" "0xR" 5 "memo"
      "key").1 "0xABC" 7 (mkGasData sendEnvW.gasEnv ⟨100, some 7⟩)
      ⟨some (mkGasData sendEnvW.gasEnv ⟨100, some 7⟩), 0⟩ 1 0 rfl rfl rfl (by decide)
  · exact (c8_zero_balance_guard Blockchain.BNB ⟨none, 0⟩ sendEnvW "0xT" "0xR" 5 "memo"
      "key").2 "0xABC" 7 (mkGasData sendEnvW.gasEnv ⟨100, some 7⟩)
      ⟨some (mkGasData sendEnvW.gasEnv ⟨100, some 7⟩), 0⟩ 1 0 "0xHASH" rfl (by decide) rfl
      rfl rfl rfl rfl

/-- C10: `_sign_transaction` with an empty or `None` private key returns
`None` — no exception and no signed bytes: the address check and the
signing sit under the truthy-key branch and there is no `else`. -/
theorem c10_sign_falsy_key (env : SignEnv) (transaction : Tx) (private_key : Option String)
    (hf : truthy private_key = false) :
    sign_transaction env transaction private_key = .ok none := by
  unfold sign_transaction
  simp [hf]

/-- Signing environment and transaction for the C10 witness. -/
def signEnvW : SignEnv := ⟨fun _ => .error "unused", "rawbytes"⟩

def txW : Tx := { chainId := 1, senderAddr := "0xABC", nonce := 0, data := "d" }

theorem c10_sign_falsy_key_witness :
    sign_transaction signEnvW txW none = .ok none ∧
    sign_transaction signEnvW txW (some "") = .ok none :=
  ⟨c10_sign_falsy_key signEnvW txW none rfl,
    c10_sign_falsy_key signEnvW txW (some "") (by decide)⟩

end AITrader
